import Mathlib

/-!
Shallow embedding of the changeset-to-commit-message pipeline of
`commit_push.py` (classes `GitOperations` and `CommitMessageGenerator`).

Python strings are modelled as `List Char` (`PyStr`); Python `str`
helpers (`lower`, `startswith`, `endswith`, `in`, `split`, `strip`,
slicing) are modelled character-wise below.  `str.lower()` and
`str.strip()` are modelled on their ASCII behaviour, which covers the
whole vocabulary this pipeline manipulates.
-/

namespace CommitPush

/-- Python strings as lists of characters. -/
abbrev PyStr := List Char

/-- Python `str.lower()` (ASCII case folding, applied per character). -/
def toLowerP (s : PyStr) : PyStr := s.map Char.toLower

/-- Python `needle in hay` for strings: substring containment. -/
def containsSub (needle hay : PyStr) : Bool := decide (needle <:+: hay)

/-- Python `s.startswith(p)`. -/
def startsWithP (p s : PyStr) : Bool := decide (p <+: s)

/-- Python `s.endswith(p)`. -/
def endsWithP (p s : PyStr) : Bool := decide (p <:+ s)

/-- Whitespace characters stripped by Python `str.strip()` (ASCII range). -/
def isPySpace (c : Char) : Bool :=
  c == ' ' || c == '\t' || c == '\n' || c == '\r' || c == '\x0b' || c == '\x0c'

/-- Python `s.strip()`: drop whitespace from both ends. -/
def pyStrip (s : PyStr) : PyStr :=
  ((s.dropWhile isPySpace).reverse.dropWhile isPySpace).reverse

/-- Python `s.split(sep)` for a one-character separator: keeps empty
fields, so the result is always non-empty (`"".split(sep) == [""]`). -/
def pySplit (sep : Char) : PyStr → List PyStr
  | [] => [[]]
  | c :: rest =>
    match pySplit sep rest with
    | [] => [[]]
    | s :: ss => if c = sep then [] :: s :: ss else (c :: s) :: ss

/-- Components of a POSIX path as produced by Python `pathlib`:
split on `/`, dropping empty components and single-dot components. -/
def pathParts (f : PyStr) : List PyStr :=
  (pySplit '/' f).filter (fun part => !part.isEmpty && part != ['.'])

/-- Python `Path(f).name`: the final path component (empty for `"."`,
`""` or `"/"`). -/
def pathName (f : PyStr) : PyStr := (pathParts f).getLast?.getD []

/-- Index of the last occurrence of `c` in `s` (Python `str.rfind`). -/
def rfindChar (c : Char) (s : PyStr) : Option Nat :=
  ((s.enum.filter (fun p => p.2 == c)).getLast?).map (fun p => p.1)

/-- Python `Path(f).stem`: the final path component without its last
suffix.  The suffix starts at the last dot of the name, provided that
dot is neither the first nor the last character of the name (the rule
`0 < i < len(name) - 1` of `pathlib`). -/
def pathStem (f : PyStr) : PyStr :=
  let n := pathName f
  match rfindChar '.' n with
  | none => n
  | some i => if 0 < i ∧ i < n.length - 1 then n.take i else n

/-- The `Config` dataclass fields that feed the message pipeline
(`repo_name`, `username`, `default_branch` and `ollama_model` only name
the remote and the model and never touch a message, so they are left
out of the embedding). -/
structure Config where
  max_commit_length : Nat := 72
  use_conventional_commits : Bool := true

/-- The module-level `config = Config()` instance with its defaults. -/
def config : Config := {}

/-- The `status` dictionary built by `GitOperations.get_repo_status`:
five lists of file paths, in the dictionary's insertion order
`untracked`, `modified`, `staged`, `deleted`, `renamed`. -/
structure ChangeSet where
  untracked : List PyStr
  modified : List PyStr
  staged : List PyStr
  deleted : List PyStr
  renamed : List PyStr
deriving DecidableEq

/-- Python `for files in status.values() for f in files`: all paths of
all five sets, flattened in the dictionary's insertion order. -/
def statusAllFiles (s : ChangeSet) : List PyStr :=
  s.untracked ++ s.modified ++ s.staged ++ s.deleted ++ s.renamed

/-- The `changes` dictionary of `GitOperations.get_file_changes`:
line-delta statistics.  `additions` and `deletions` come from Python
`int()` so they are integers; `files` is a count incremented from 0. -/
structure FileChanges where
  additions : Int
  deletions : Int
  files : Nat
deriving DecidableEq

/-- Digit string to number (helper for the `int()` model). -/
def digitsToNat (s : PyStr) : Nat :=
  s.foldl (fun a c => a * 10 + (c.toNat - '0'.toNat)) 0

/-- Python `int(s)` on decimal ASCII input: optional surrounding
whitespace, optional single sign, at least one digit; `none` models the
`ValueError` raised on anything else. -/
def pyInt (s : PyStr) : Option Int :=
  match pyStrip s with
  | [] => none
  | c :: rest =>
    if c == '-' || c == '+' then
      if !rest.isEmpty && rest.all Char.isDigit then
        some (if c == '-' then -(digitsToNat rest : Int) else (digitsToNat rest : Int))
      else none
    else if (c :: rest).all Char.isDigit then some (digitsToNat (c :: rest) : Int)
    else none

/-- One iteration of the parsing loop of `GitOperations.get_file_changes`.
The Python body mutates `changes` inside a `try` block in statement
order: the `additions` augmented assignment completes before the
`deletions` field is parsed, so a `ValueError` raised by the second
`int()` leaves the `additions` increment in place while `deletions` and
`files` are untouched (`except ValueError: continue`).  A `'-'`
placeholder field contributes 0 without raising. -/
def parse_numstat_line (acc : FileChanges) (line : PyStr) : FileChanges :=
  match pySplit '\t' line with
  | p0 :: p1 :: _ =>
    match (if p0 = ['-'] then some 0 else pyInt p0) with
    | none => acc
    | some a =>
      let acc1 : FileChanges := { acc with additions := acc.additions + a }
      match (if p1 = ['-'] then some 0 else pyInt p1) with
      | none => acc1
      | some d => { acc1 with deletions := acc1.deletions + d, files := acc1.files + 1 }
  | _ => acc

/-- `GitOperations.get_file_changes`, applied to the text returned by
the numeric-diff query (`git diff --numstat`): split into lines and
fold the per-line parser over them; a falsy (empty) result leaves the
zero statistics. -/
def get_file_changes (stats : PyStr) : FileChanges :=
  if stats.isEmpty then ⟨0, 0, 0⟩
  else (pySplit '\n' stats).foldl parse_numstat_line ⟨0, 0, 0⟩

/-- The keys of `CommitMessageGenerator.conventional_types`, in
insertion order. -/
def conventional_types : List PyStr :=
  ["feat", "fix", "docs", "style", "refactor", "perf", "test", "build",
   "ci", "chore", "security", "config"].map String.toList

/-- `'fix' in f.lower()` — case-insensitive substring check. -/
def path_is_fix (f : PyStr) : Bool := containsSub "fix".toList (toLowerP f)

/-- `'test' in f.lower()` — case-insensitive substring check. -/
def path_is_test (f : PyStr) : Bool := containsSub "test".toList (toLowerP f)

/-- `f.endswith('.md')` — case-sensitive extension check. -/
def path_ends_md (f : PyStr) : Bool := endsWithP ".md".toList f

/-- `f.endswith(exts)` for a tuple of extensions (any-of). -/
def path_ends_any (exts : List PyStr) (f : PyStr) : Bool :=
  exts.any (fun e => endsWithP e f)

/-- Documentation extensions of `analyze_changes`. -/
def docExts : List PyStr := [".md", ".rst", ".txt"].map String.toList

/-- Configuration extensions of `analyze_changes`. -/
def configExts : List PyStr :=
  [".json", ".yml", ".yaml", ".toml", ".ini"].map String.toList

/-- Source-code extensions of `analyze_changes`. -/
def sourceExts : List PyStr :=
  [".py", ".js", ".ts", ".java", ".cpp"].map String.toList

/-- `CommitMessageGenerator.analyze_changes`: non-exclusive category
scan over all paths of all sets, labels joined with `", "`, or the
literal `"general changes"` when no label matched. -/
def analyze_changes (status : ChangeSet) : PyStr :=
  let all := statusAllFiles status
  let analysis : List PyStr :=
    (if all.any path_is_test then ["test files".toList] else [])
    ++ (if all.any (path_ends_any docExts) then ["documentation".toList] else [])
    ++ (if all.any (path_ends_any configExts) then ["configuration".toList] else [])
    ++ (if all.any (path_ends_any sourceExts) then ["source code".toList] else [])
  if analysis.isEmpty then "general changes".toList
  else List.intercalate ", ".toList analysis

/-- Commit-type guess of `generate_fallback_message`: default `feat`,
overridden by the `if`/`elif` chain on `fix` substring, `.md` suffix,
`test` substring, in that order. -/
def fallback_commit_type (status : ChangeSet) : PyStr :=
  if (statusAllFiles status).any path_is_fix then "fix".toList
  else if (statusAllFiles status).any path_ends_md then "docs".toList
  else if (statusAllFiles status).any path_is_test then "test".toList
  else "feat".toList

/-- Scope guess of `generate_fallback_message`: when the numeric-diff
file count is exactly 1, the stem of the first truthy (non-empty) path
across the five sets, parenthesized; otherwise the empty string. -/
def fallback_scope (status : ChangeSet) (stats : FileChanges) : PyStr :=
  if stats.files = 1 then
    match (statusAllFiles status).filter (fun f => !f.isEmpty) with
    | [] => []
    | f :: _ => '(' :: (pathStem f ++ [')'])
  else []

/-- Action word of `generate_fallback_message`: `update` when the
`modified` list is truthy (non-empty), else `add`. -/
def fallback_action (status : ChangeSet) : PyStr :=
  if status.modified.isEmpty then "add".toList else "update".toList

/-- Decimal rendering of the file count, as the Python f-string does. -/
def natToChars (n : Nat) : PyStr := (Nat.repr n).toList

/-- `CommitMessageGenerator.generate_fallback_message`. -/
def generate_fallback_message (status : ChangeSet) (stats : FileChanges) : PyStr :=
  if stats.files = 0 then "chore: update repository".toList
  else
    fallback_commit_type status ++ fallback_scope status stats
      ++ ": ".toList ++ fallback_action status ++ [' ']
      ++ natToChars stats.files ++ " file".toList
      ++ (if 1 < stats.files then ['s'] else [])

/-- Step 1 of `CommitMessageGenerator._clean_message`: strip one layer
of enclosing double quotes (`message[1:-1]`) when the message both
starts and ends with `"`. -/
def strip_quotes (m : PyStr) : PyStr :=
  if startsWithP ['"'] m && endsWithP ['"'] m then (m.drop 1).dropLast else m

/-- Step 2 of `_clean_message` for one label: when the lowercased
message starts with the label, drop the label's length from the
original message and strip surrounding whitespace. -/
def stripLabel (p m : PyStr) : PyStr :=
  if startsWithP p (toLowerP m) then pyStrip (m.drop p.length) else m

/-- Step 2 of `_clean_message`: the loop over the three labels
`"commit message:"`, `"message:"`, `"git commit:"`, in that order. -/
def strip_labels (m : PyStr) : PyStr :=
  stripLabel "git commit:".toList
    (stripLabel "message:".toList (stripLabel "commit message:".toList m))

/-- `CommitMessageGenerator._clean_message`: strip quotes, strip
labels, then truncate to `max_commit_length - 3` characters plus an
ellipsis when the remaining length exceeds `max_commit_length`. -/
def clean_message (cfg : Config) (m : PyStr) : PyStr :=
  let m1 := strip_labels (strip_quotes m)
  if cfg.max_commit_length < m1.length
  then m1.take (cfg.max_commit_length - 3) ++ "...".toList
  else m1

/-- `CommitMessageGenerator._validate_message`: reject falsy or
shorter-than-10 messages; under conventional-commit enforcement,
additionally require a `:` character and some conventional type token
as a substring of the lowercased message. -/
def validate_message (cfg : Config) (m : PyStr) : Bool :=
  if m = [] ∨ m.length < 10 then false
  else if cfg.use_conventional_commits then
    m.contains ':' && conventional_types.any (fun t => containsSub t (toLowerP m))
  else true

/-! ## Helper lemmas -/

/-- Bool-to-Prop bridge for substring containment. -/
theorem containsSub_iff {n h : PyStr} : containsSub n h = true ↔ n <:+: h := by
  simp [containsSub]

/-- Bool-to-Prop bridge for the starts-with check. -/
theorem startsWithP_iff {p s : PyStr} : startsWithP p s = true ↔ p <+: s := by
  simp [startsWithP]

/-- Bool-to-Prop bridge for the ends-with check. -/
theorem endsWithP_iff {p s : PyStr} : endsWithP p s = true ↔ p <:+ s := by
  simp [endsWithP]

/-- The default maximum commit length is 72. -/
theorem config_max_eq : config.max_commit_length = 72 := rfl

/-- Conventional-commit enforcement is on by default. -/
theorem config_conv_eq : config.use_conventional_commits = true := rfl

/-- Under the default configuration, normalization never returns more
than 72 characters: the non-truncated branch is guarded by the length
test and the truncated branch returns 69 + 3 characters. -/
theorem clean_config_length_le (m : PyStr) : (clean_message config m).length ≤ 72 := by
  unfold clean_message
  rw [config_max_eq]
  by_cases h : 72 < (strip_labels (strip_quotes m)).length
  · rw [if_pos h]
    have hdots : ("...".toList : PyStr).length = 3 := rfl
    rw [List.length_append, List.length_take, hdots]
    omega
  · rw [if_neg h]
    omega

/-- A label strip is a no-op when the lowercased message does not start
with the label. -/
theorem stripLabel_eq_of (p m : PyStr)
    (h : startsWithP p (toLowerP m) = false) : stripLabel p m = m := by
  simp [stripLabel, h]

/-- Quote stripping is a no-op when the message is not enclosed in
double quotes. -/
theorem strip_quotes_eq_of (m : PyStr)
    (h : (startsWithP ['"'] m && endsWithP ['"'] m) = false) :
    strip_quotes m = m := by
  simp [strip_quotes, h]

/-! ## Claims -/

/-- C5 counterexample: a ChangeSet whose five path sets are all empty
but whose line-delta file count is 1 does not yield
`chore: update repository` — the guard tests the numeric-diff count,
not the path sets. -/
theorem c5_counterexample :
    generate_fallback_message ⟨[], [], [], [], []⟩ ⟨0, 0, 1⟩ ≠
      "chore: update repository".toList := by decide

/-- C5 (amended): for every ChangeSet and line-delta record whose
`files` count is 0, the fallback strategy returns exactly
`chore: update repository`; being a total function, it succeeds on
every input. -/
theorem c5_zero_files_chore (cs : ChangeSet) (stats : FileChanges)
    (h : stats.files = 0) :
    generate_fallback_message cs stats = "chore: update repository".toList := by
  simp [generate_fallback_message, h]

/-- C5 witness: the amended theorem applied at the empty ChangeSet with
zero counted files. -/
theorem c5_zero_files_chore_witness :
    generate_fallback_message ⟨[], [], [], [], []⟩ ⟨0, 0, 0⟩ =
      "chore: update repository".toList :=
  c5_zero_files_chore _ _ rfl

/-- C1 counterexample: on the ChangeSet whose only touched file is
`readme.md` (file count 1, `modified` empty), the fallback message is
not `feat(readme): add 1 file` — the `.md` suffix rule fires first and
selects type `docs`. -/
theorem c1_counterexample :
    generate_fallback_message ⟨["readme.md".toList], [], [], [], []⟩ ⟨0, 0, 1⟩ ≠
      "feat(readme): add 1 file".toList := by decide

/-- C1 (amended): for every ChangeSet whose only touched file is named
`readme.md` (all other sets empty, `modified` empty, file count 1), the
fallback strategy returns exactly `docs(readme): add 1 file` — commit
type `docs` (the `.md` extension rule precedes the `feat` default),
scope `(readme)`, action `add`. -/
theorem c1_fallback_readme (cs : ChangeSet) (stats : FileChanges)
    (hall : statusAllFiles cs = ["readme.md".toList])
    (hmod : cs.modified = [])
    (hf : stats.files = 1) :
    generate_fallback_message cs stats = "docs(readme): add 1 file".toList := by
  simp only [generate_fallback_message, fallback_commit_type, fallback_scope,
    fallback_action]
  rw [hall, hmod, hf]
  decide

/-- C1 witness: the amended theorem applied at the ChangeSet with one
untracked `readme.md` and file count 1. -/
theorem c1_fallback_readme_witness :
    generate_fallback_message ⟨["readme.md".toList], [], [], [], []⟩ ⟨0, 0, 1⟩ =
      "docs(readme): add 1 file".toList :=
  c1_fallback_readme _ _ (by decide) rfl rfl

/-- C8: evaluation of the line-delta parser at the failing input.  A
line whose first field parses as an integer but whose second field does
not (`"5\tx\tfoo"`) is not skipped entirely: the additions counter has
already been incremented by 5 when the second `int()` raises, while
deletions and files stay 0.  A `'-'` placeholder line (`"-\t-\tbin.png"`)
does contribute zeros and is counted, as the claim says. -/
theorem c8_partial_line_update :
    get_file_changes "5\tx\tfoo".toList = ⟨5, 0, 0⟩ ∧
      get_file_changes "-\t-\tbin.png".toList = ⟨0, 0, 1⟩ := by decide

/-- C9: for every input string, the normalizer's output length never
exceeds the configured maximum commit length (default 72). -/
theorem c9_clean_length_bounded (m : PyStr) :
    (clean_message config m).length ≤ config.max_commit_length := by
  rw [config_max_eq]
  exact clean_config_length_le m

/-- C3 counterexample: a 73-character raw candidate that is enclosed in
double quotes is first unquoted to 71 characters, so no truncation
happens and the output length is 71, not 72. -/
theorem c3_counterexample :
    (('"' :: List.replicate 71 'a') ++ ['"'] : PyStr).length = 73 ∧
      (clean_message config (('"' :: List.replicate 71 'a') ++ ['"'])).length ≠ 72 := by
  decide

/-- C3 (amended): with the configured maximum length at its default of
72, for every raw candidate whose length still exceeds 72 after the
quote- and label-stripping steps, the normalizer's output has length
exactly 72 and ends in the ellipsis marker `...`. -/
theorem c3_truncated_to_72 (m : PyStr)
    (h : 72 < (strip_labels (strip_quotes m)).length) :
    (clean_message config m).length = 72 ∧
      "...".toList <:+ clean_message config m := by
  unfold clean_message
  rw [config_max_eq, if_pos h]
  refine ⟨?_, List.suffix_append _ _⟩
  have hdots : ("...".toList : PyStr).length = 3 := rfl
  rw [List.length_append, List.length_take, hdots]
  omega

/-- C3 witness: the amended theorem applied at a raw candidate of 80
repeated characters. -/
theorem c3_truncated_to_72_witness :
    (clean_message config (List.replicate 80 'a')).length = 72 ∧
      "...".toList <:+ clean_message config (List.replicate 80 'a') :=
  c3_truncated_to_72 _ (by decide)

/-- C4 counterexample: normalization is not idempotent.  Quote
stripping removes only one layer of enclosing quotes, so normalizing a
doubly quoted message once leaves a singly quoted message that a second
normalization changes again. -/
theorem c4_counterexample :
    clean_message config (clean_message config "\"\"hello\"\"".toList) ≠
      clean_message config "\"\"hello\"\"".toList := by decide

/-- C4 (amended): normalization is idempotent on every input whose
normalized form is not enclosed in double quotes and does not
case-insensitively start with one of the three stripped labels; on such
inputs (which include every normalized output that the quote and label
steps would leave alone) a second normalization returns the message
unchanged. -/
theorem c4_clean_idempotent (m : PyStr)
    (hq : (startsWithP ['"'] (clean_message config m) &&
        endsWithP ['"'] (clean_message config m)) = false)
    (h1 : startsWithP "commit message:".toList
        (toLowerP (clean_message config m)) = false)
    (h2 : startsWithP "message:".toList
        (toLowerP (clean_message config m)) = false)
    (h3 : startsWithP "git commit:".toList
        (toLowerP (clean_message config m)) = false) :
    clean_message config (clean_message config m) = clean_message config m := by
  have hlen := clean_config_length_le m
  set k := clean_message config m with hk
  unfold clean_message
  rw [strip_quotes_eq_of _ hq]
  have hl : strip_labels k = k := by
    unfold strip_labels
    rw [stripLabel_eq_of _ _ h1, stripLabel_eq_of _ _ h2, stripLabel_eq_of _ _ h3]
  rw [hl, config_max_eq, if_neg (by omega)]

/-- C4 witness: the amended theorem applied at an already conventional
message. -/
theorem c4_clean_idempotent_witness :
    clean_message config (clean_message config "feat: add login page".toList) =
      clean_message config "feat: add login page".toList :=
  c4_clean_idempotent _ (by decide) (by decide) (by decide) (by decide)

/-- C2: for every configuration and candidate string, the validator
rejects the normalized candidate if and only if its normalized length
is below 10 characters, or — when conventional-commit enforcement is
enabled — it does not both contain a `:` separator and contain
(case-insensitively) a commit-type token from the enumerated set.  In
particular every candidate whose normalized form is shorter than 10
characters is rejected regardless of its format. -/
theorem c2_validation_rejects_iff (cfg : Config) (c : PyStr) :
    validate_message cfg (clean_message cfg c) = false ↔
      ((clean_message cfg c).length < 10 ∨
        (cfg.use_conventional_commits = true ∧
          ¬((clean_message cfg c).contains ':' = true ∧
            ∃ t ∈ conventional_types, t <:+: toLowerP (clean_message cfg c)))) := by
  generalize clean_message cfg c = m
  unfold validate_message
  by_cases h10 : m.length < 10
  · rw [if_pos (Or.inr h10)]
    simp [h10]
  · have hcond : ¬(m = [] ∨ m.length < 10) := by
      rintro (rfl | h)
      · exact h10 (by simp)
      · exact h10 h
    rw [if_neg hcond]
    cases hc : cfg.use_conventional_commits with
    | false => simp [h10]
    | true =>
      rw [if_pos rfl]
      constructor
      · intro hfalse
        refine Or.inr ⟨rfl, ?_⟩
        rintro ⟨hcol, t, htmem, htin⟩
        have hany : conventional_types.any (fun t => containsSub t (toLowerP m)) = true := by
          rw [List.any_eq_true]
          exact ⟨t, htmem, containsSub_iff.mpr htin⟩
        rw [hcol, hany] at hfalse
        exact absurd hfalse (by decide)
      · rintro (h | ⟨-, hnot⟩)
        · exact absurd h h10
        · cases hcol : (m.contains ':') with
          | false => rw [Bool.false_and]
          | true =>
            cases hany : conventional_types.any (fun t => containsSub t (toLowerP m)) with
            | false => rw [Bool.and_false]
            | true =>
              exfalso
              apply hnot
              refine ⟨hcol, ?_⟩
              obtain ⟨t, htmem, htc⟩ := List.any_eq_true.mp hany
              exact ⟨t, htmem, containsSub_iff.mp htc⟩

/-- C6 counterexample: the scope is not tied to the touched-file count.
With all five path sets empty but a numeric-diff count of 1 the scope
is empty although the count is 1 under the claim's reading, and with
two paths in the sets but a numeric-diff count of 1 the scope is the
first path's stem although the touched-file count is 2. -/
theorem c6_counterexample :
    fallback_scope ⟨[], [], [], [], []⟩ ⟨0, 0, 1⟩ = [] ∧
      fallback_scope ⟨["a.py".toList, "b.py".toList], [], [], [], []⟩ ⟨0, 0, 1⟩ =
        "(a)".toList := by decide

/-- C6 (amended): the fallback scope is non-empty exactly when the
line-delta `files` count is 1 and at least one path set contains a
non-empty path; in that case it is the parenthesized stem of the first
non-empty path in set order untracked, modified, staged, deleted,
renamed. -/
theorem c6_scope_characterization (cs : ChangeSet) (stats : FileChanges) :
    (fallback_scope cs stats ≠ [] ↔
      stats.files = 1 ∧ (statusAllFiles cs).filter (fun f => !f.isEmpty) ≠ []) ∧
    (∀ f rest, stats.files = 1 →
      (statusAllFiles cs).filter (fun f => !f.isEmpty) = f :: rest →
      fallback_scope cs stats = '(' :: (pathStem f ++ [')'])) := by
  constructor
  · unfold fallback_scope
    by_cases hf : stats.files = 1
    · rw [if_pos hf]
      cases hfl : (statusAllFiles cs).filter (fun f => !f.isEmpty) with
      | nil => simp [hf]
      | cons a l => simp [hf]
    · rw [if_neg hf]
      simp [hf]
  · intro f rest hf hfl
    unfold fallback_scope
    rw [if_pos hf, hfl]

/-- C6 witness: the amended theorem applied at a ChangeSet with a
single untracked path `a.py` and file count 1. -/
theorem c6_scope_characterization_witness :
    fallback_scope ⟨["a.py".toList], [], [], [], []⟩ ⟨0, 0, 1⟩ =
      '(' :: (pathStem "a.py".toList ++ [')']) :=
  (c6_scope_characterization _ _).2 _ [] rfl (by decide)

/-- C7: the fallback commit type is chosen by first-match-wins rules in
the fixed order `fix` (case-insensitive substring), `docs` (`.md`
suffix), `test` (case-insensitive substring), default `feat`; in
particular any path containing `fix` in any set forces type `fix`. -/
theorem c7_first_match_type (cs : ChangeSet) :
    ((∃ f ∈ statusAllFiles cs, "fix".toList <:+: toLowerP f) →
        fallback_commit_type cs = "fix".toList) ∧
    ((∀ f ∈ statusAllFiles cs, ¬ "fix".toList <:+: toLowerP f) →
      (∃ f ∈ statusAllFiles cs, ".md".toList <:+ f) →
        fallback_commit_type cs = "docs".toList) ∧
    ((∀ f ∈ statusAllFiles cs, ¬ "fix".toList <:+: toLowerP f) →
      (∀ f ∈ statusAllFiles cs, ¬ ".md".toList <:+ f) →
      (∃ f ∈ statusAllFiles cs, "test".toList <:+: toLowerP f) →
        fallback_commit_type cs = "test".toList) ∧
    ((∀ f ∈ statusAllFiles cs, ¬ "fix".toList <:+: toLowerP f) →
      (∀ f ∈ statusAllFiles cs, ¬ ".md".toList <:+ f) →
      (∀ f ∈ statusAllFiles cs, ¬ "test".toList <:+: toLowerP f) →
        fallback_commit_type cs = "feat".toList) := by
  have bfix : (statusAllFiles cs).any path_is_fix = true ↔
      ∃ f ∈ statusAllFiles cs, "fix".toList <:+: toLowerP f := by
    simp [List.any_eq_true, path_is_fix, containsSub]
  have bmd : (statusAllFiles cs).any path_ends_md = true ↔
      ∃ f ∈ statusAllFiles cs, ".md".toList <:+ f := by
    simp [List.any_eq_true, path_ends_md, endsWithP]
  have btest : (statusAllFiles cs).any path_is_test = true ↔
      ∃ f ∈ statusAllFiles cs, "test".toList <:+: toLowerP f := by
    simp [List.any_eq_true, path_is_test, containsSub]
  have neg_any : ∀ (p : PyStr → Bool) (Q : PyStr → Prop),
      ((statusAllFiles cs).any p = true ↔ ∃ f ∈ statusAllFiles cs, Q f) →
      (∀ f ∈ statusAllFiles cs, ¬ Q f) → (statusAllFiles cs).any p = false := by
    intro p Q hb hn
    cases hv : (statusAllFiles cs).any p with
    | false => rfl
    | true =>
      obtain ⟨f, hm, hq⟩ := hb.mp hv
      exact absurd hq (hn f hm)
  refine ⟨fun h => ?_, fun n1 h => ?_, fun n1 n2 h => ?_, fun n1 n2 n3 => ?_⟩
  · simp [fallback_commit_type, bfix.mpr h]
  · simp [fallback_commit_type, neg_any _ _ bfix n1, bmd.mpr h]
  · simp [fallback_commit_type, neg_any _ _ bfix n1, neg_any _ _ bmd n2,
      btest.mpr h]
  · simp [fallback_commit_type, neg_any _ _ bfix n1, neg_any _ _ bmd n2,
      neg_any _ _ btest n3]

/-- C7 witness: the first rule applied at a ChangeSet whose only path
contains `fix`. -/
theorem c7_first_match_type_witness :
    fallback_commit_type ⟨["hotfix.py".toList], [], [], [], []⟩ = "fix".toList :=
  (c7_first_match_type _).1 ⟨"hotfix.py".toList, by decide, by decide⟩

/-- C10: the substring checks (`test` in the classifier, `fix` and
`test` in the fallback) are case-insensitive — invariant under any
change of letter case of the paths — while the extension-based category
checks are case-sensitive: `README.MD` yields no `documentation` label
(only `general changes`), `CONFIG.JSON` no `configuration` label,
`MAIN.PY` no `source code` label, whereas their lowercase variants do;
and an upper-case `HOTFIX.TXT` still forces fallback type `fix`. -/
theorem c10_case_sensitivity :
    (∀ f g : PyStr, toLowerP f = toLowerP g →
      path_is_test f = path_is_test g ∧ path_is_fix f = path_is_fix g) ∧
    analyze_changes ⟨["README.MD".toList], [], [], [], []⟩ = "general changes".toList ∧
    analyze_changes ⟨["readme.md".toList], [], [], [], []⟩ = "documentation".toList ∧
    analyze_changes ⟨["CONFIG.JSON".toList], [], [], [], []⟩ = "general changes".toList ∧
    analyze_changes ⟨["config.json".toList], [], [], [], []⟩ = "configuration".toList ∧
    analyze_changes ⟨["MAIN.PY".toList], [], [], [], []⟩ = "general changes".toList ∧
    analyze_changes ⟨["main.py".toList], [], [], [], []⟩ = "source code".toList ∧
    fallback_commit_type ⟨["HOTFIX.TXT".toList], [], [], [], []⟩ = "fix".toList := by
  refine ⟨fun f g h => ⟨?_, ?_⟩, by decide, by decide, by decide, by decide,
    by decide, by decide, by decide⟩
  · simp [path_is_test, h]
  · simp [path_is_fix, h]

/-- C10 witness: the invariance part applied at two case variants of
the same path. -/
theorem c10_case_sensitivity_witness :
    path_is_test "TeSt.py".toList = path_is_test "tEsT.PY".toList :=
  ((c10_case_sensitivity.1 _ _ (by decide)).1)

end CommitPush
